import Mathlib

/-!
Verification of the protocol bridge in `src/browser-service/browser_controller.py`
(class `BrowserController`): a shallow embedding of its data model and operations,
followed by theorems settling the specification claims.

Modelling conventions:
* JSON values decoded by `json.loads` / produced by `json.dumps` are the inductive
  type `J` (arrays are not needed on any modelled code path).
* The mutable fields of `BrowserController` (`ws_connection`, `message_id`,
  `pending_commands`) become the record `BCState`; the Correlation Table
  `pending_commands : Dict[int, Future]` becomes the list of currently pending
  request ids in registration order (the futures carry no data until resolved,
  so resolution is recorded as an explicit `Effect`).
* Side effects (websocket sends, future resolutions, Redis publications, prints)
  are returned as an explicit list of `Effect` values.
* Wall-clock timestamps (`datetime.utcnow().isoformat()`) are passed in as an
  explicit `now : String` argument.
-/

namespace BrowserService

/-- JSON values as handled by the controller (no arrays are needed). -/
inductive J where
  | null : J
  | b : Bool → J
  | i : Int → J
  | s : String → J
  | obj : List (String × J) → J

/-- Key lookup in the field list of a JSON object (Python `dict` access). -/
def lookupKV : List (String × J) → String → Option J
  | [], _ => none
  | (k', v) :: rest, k => if k' = k then some v else lookupKV rest k

/-- `data[k]` / `k in data`: `some` iff the key is present (on objects). -/
def J.lookup : J → String → Option J
  | .obj kvs, k => lookupKV kvs k
  | _, _ => none

/-- Python `data.get(k, d)`. -/
def J.getD (j : J) (k : String) (d : J) : J := (j.lookup k).getD d

/-- Python equality test between a JSON value and a string constant. -/
def jeqS : J → String → Bool
  | .s x, y => x = y
  | _, _ => false

/-- Mutable state of one `BrowserController` instance: whether `ws_connection`
is set, the `message_id` counter, and the keys of `pending_commands`. -/
structure BCState where
  ws_connected : Bool
  message_id : Int
  pending_commands : List Int

/-- Observable side effects of the code paths of the controller. -/
inductive Effect where
  | send : J → Effect
  | resolve : Int → J → Effect
  | publish : String → J → Effect
  | log : String → Effect

/-- The event allow-list of `handle_event`: Python
`method in ["Page.loadEventFired", "Page.frameNavigated", "Network.requestWillBeSent"]`
is equality of the value of `event.get("method", "")` against each list element. -/
def isAllowedEvent (method : J) : Bool :=
  jeqS method "Page.loadEventFired" || jeqS method "Page.frameNavigated" ||
    jeqS method "Network.requestWillBeSent"

/-- `handle_event`: republish `{type, params, timestamp}` onto the
`browser:events` channel iff the method is on the allow-list. -/
def handle_event (now : String) (event : J) : List Effect :=
  let method := event.getD "method" (J.s "")
  let params := event.getD "params" (J.obj [])
  if isAllowedEvent method then
    [Effect.publish "browser:events"
      (J.obj [("type", method), ("params", params), ("timestamp", J.s now)])]
  else []

/-- Body of the `handle_messages` loop for one decoded message `data`:
`if "id" in data` resolve-and-delete a matching pending command,
`elif "method" in data` route to `handle_event`. A response whose id is not in
`pending_commands` is dropped with no effect at all. -/
def handle_message (now : String) (st : BCState) (data : J) : BCState × List Effect :=
  if (data.lookup "id").isSome then
    match data.lookup "id" with
    | some (J.i mid) =>
      if mid ∈ st.pending_commands then
        ({ st with pending_commands := st.pending_commands.erase mid },
          [Effect.resolve mid data])
      else (st, [])
    | _ => (st, [])
  else if (data.lookup "method").isSome then
    (st, handle_event now data)
  else (st, [])

/-- One unit of the inbound wire stream consumed by `handle_messages`:
either a decoded JSON message or the `ConnectionClosed` exception. -/
inductive WireEvent where
  | msg : J → WireEvent
  | closed : WireEvent

/-- The `handle_messages` read loop over a finite prefix of the wire stream:
each message is dispatched by `handle_message`; on `ConnectionClosed` the loop
prints "Browser connection closed" and breaks, touching nothing else. -/
def handle_messages (now : String) : BCState → List WireEvent → BCState × List Effect
  | st, [] => (st, [])
  | st, .closed :: _ => (st, [Effect.log "Browser connection closed"])
  | st, .msg d :: rest =>
    ((handle_messages now (handle_message now st d).1 rest).1,
      (handle_message now st d).2 ++ (handle_messages now (handle_message now st d).1 rest).2)

/-- One target descriptor returned by the `http://localhost:9222/json`
discovery endpoint, restricted to the two keys the code reads
(`t.get("type")`, `t.get("webSocketDebuggerUrl")`). -/
structure Target where
  type : Option String
  webSocketDebuggerUrl : Option String

/-- Target-selection logic of `connect_to_browser` applied to the decoded
discovery response: `none` models `return False` (a connect failure).
The code guards `if not targets`, then picks
`next((t for t in targets if t.get("type") == "page"), targets[0])`
and returns `False` when that target has no `webSocketDebuggerUrl`;
otherwise it connects to the selected URL. -/
def connect_to_browser (targets : List Target) : Option String :=
  match targets with
  | [] => none
  | t0 :: _ =>
    ((targets.find? fun t => t.type = some "page").getD t0).webSocketDebuggerUrl

/-- The synchronous prefix of `send_command` up to and including the websocket
send: raise "Not connected to browser" if there is no connection, else
increment `message_id`, register the new id in `pending_commands`, and send
`{"id": id, "method": method, "params": params or {}}`.
Returns the new state, the allocated id and the send effect. -/
def send_command_start (st : BCState) (method : String) (params : Option J) :
    Except String (BCState × Int × List Effect) :=
  if st.ws_connected = false then .error "Not connected to browser"
  else
    let mid := st.message_id + 1
    .ok ({ st with message_id := mid, pending_commands := st.pending_commands ++ [mid] },
      mid,
      [Effect.send (J.obj [("id", J.i mid), ("method", J.s method),
        ("params", params.getD (J.obj []))])])

/-- The `asyncio.TimeoutError` branch of `send_command`: delete the pending
entry and raise `"Command {method} timed out"`. Returns the new state and the
exception message. -/
def send_command_timeout (st : BCState) (mid : Int) (method : String) : BCState × String :=
  ({ st with pending_commands := st.pending_commands.erase mid },
    "Command " ++ method ++ " timed out")

/-- Registration of a sequence of `send_command` invocations on one session
(each running up to its websocket send, none yet resolved): returns the final
state and the list of allocated request ids in order. -/
def sendAll : BCState → List (String × Option J) → BCState × List Int
  | st, [] => (st, [])
  | st, (m, p) :: rest =>
    match send_command_start st m p with
    | .error _ => (st, [])
    | .ok (st1, mid, _) =>
      ((sendAll st1 rest).1, mid :: (sendAll st1 rest).2)

/-- An External Command read from the `browser:commands` channel, restricted to
the keys `process_command` reads via `command.get(...)`; an absent key is
`none`. -/
structure Command where
  action : Option String := none
  session_id : Option String := none
  url : Option String := none
  x : Option Int := none
  y : Option Int := none
  text : Option String := none
  expression : Option String := none

/-- JSON encoding of an optional string (Python `None` becomes JSON `null`). -/
def jOfStrOpt : Option String → J
  | some u => J.s u
  | none => J.null

/-- Python string interpolation of an optional string (f-strings render
`None` as the text "None"). -/
def pyStrOpt : Option String → String
  | some u => u
  | none => "None"

/-- The single CDP call issued by `navigate(url)`. -/
def navigateCalls (url : Option String) : List (String × J) :=
  [("Page.navigate", J.obj [("url", jOfStrOpt url)])]

/-- The single CDP call issued by `screenshot()`. -/
def screenshotCalls : List (String × J) :=
  [("Page.captureScreenshot", J.obj [("format", J.s "png"), ("quality", J.i 80)])]

/-- Parameters of one `Input.dispatchMouseEvent` issued by `click(x, y)`. -/
def mouseEventParams (kind : String) (x y : Int) : J :=
  J.obj [("type", J.s kind), ("x", J.i x), ("y", J.i y), ("button", J.s "left"),
    ("clickCount", J.i 1)]

/-- The two CDP calls issued by `click(x, y)`: press then release. -/
def clickCalls (x y : Int) : List (String × J) :=
  [("Input.dispatchMouseEvent", mouseEventParams "mousePressed" x y),
   ("Input.dispatchMouseEvent", mouseEventParams "mouseReleased" x y)]

/-- Parameters of one `Input.dispatchKeyEvent` issued by `type_text`. -/
def keyEventParams (kind : String) (c : Char) : J :=
  J.obj [("type", J.s kind), ("text", J.s (String.singleton c))]

/-- The CDP calls issued by `type_text(text)`: a keyDown/keyUp pair per
character, in order. -/
def typeTextCalls (text : String) : List (String × J) :=
  text.data.flatMap fun c =>
    [("Input.dispatchKeyEvent", keyEventParams "keyDown" c),
     ("Input.dispatchKeyEvent", keyEventParams "keyUp" c)]

/-- The single CDP call issued by `evaluate(expression)`. -/
def evaluateCalls (expression : String) : List (String × J) :=
  [("Runtime.evaluate", J.obj [("expression", J.s expression), ("returnByValue", J.b true)])]

/-- The extraction `screenshot` performs from the resolved response:
`result.get("result", {}).get("data", "")`. -/
def screenshotExtract (data : J) : J :=
  (data.getD "result" (J.obj [])).getD "data" (J.s "")

/-- The extraction `evaluate` performs from the resolved response:
`result.get("result", {}).get("result", {}).get("value")` (default `None`). -/
def evaluateExtract (data : J) : J :=
  ((data.getD "result" (J.obj [])).getD "result" (J.obj [])).getD "value" J.null

/-- Outcome of one awaited `send_command`: the resolved response data, or an
exception (timeout / not connected). -/
inductive Outcome where
  | ok : J → Outcome
  | exc : String → Outcome

/-- Sequential execution of the CDP calls of a derived operation against an oracle
giving the outcome of the `k`-th call. Returns the list of resolved responses (or
the first exception) and the calls actually issued: once a call raises, the
remaining calls are never sent. -/
def runSeq (orc : Nat → Outcome) : Nat → List (String × J) →
    Except String (List J) × List (String × J)
  | _, [] => (.ok [], [])
  | k, c :: cs =>
    match orc k with
    | .exc m => (.error m, [c])
    | .ok d =>
      match runSeq orc (k + 1) cs with
      | (.error m, done) => (.error m, c :: done)
      | (.ok ds, done) => (.ok (d :: ds), c :: done)

/-- The result dict built by `process_command` and published as JSON. Field
order and presence mirror the construction of the dict: `session_id` and `success`
always, then `data`/`value`/`url` from the action branch, then `error` from
the `except` clause. -/
structure CmdResult where
  session_id : Option String
  success : Bool
  data : Option J := none
  value : Option J := none
  url : Option J := none
  error : Option String := none

/-- `json.dumps` of the result dict. -/
def CmdResult.toJ (r : CmdResult) : J :=
  J.obj ([("session_id", jOfStrOpt r.session_id), ("success", J.b r.success)]
    ++ (match r.data with | some d => [("data", d)] | none => [])
    ++ (match r.value with | some v => [("value", v)] | none => [])
    ++ (match r.url with | some u => [("url", u)] | none => [])
    ++ (match r.error with | some e => [("error", J.s e)] | none => []))

/-- `process_command`: dispatch on `command.get("action")` through the
if/elif chain, run the calls of the selected derived operation sequentially
(outcomes supplied by `orc`), build the result dict (`success` stays `False`
and `error` is set if a call raised; an unrecognized action leaves the
initial `{"session_id": ..., "success": False}` untouched), and publish it
once to `browser:result:{session_id}`. Returns the result, the CDP calls
actually issued, and the publish effect list. -/
def process_command (orc : Nat → Outcome) (cmd : Command) :
    CmdResult × List (String × J) × List Effect :=
  let base : CmdResult := { session_id := cmd.session_id, success := false }
  let rc :=
    if cmd.action = some "navigate" then
      match runSeq orc 0 (navigateCalls cmd.url) with
      | (.ok _, done) => ({ base with success := true }, done)
      | (.error m, done) => ({ base with error := some m }, done)
    else if cmd.action = some "screenshot" then
      match runSeq orc 0 screenshotCalls with
      | (.ok ds, done) =>
        ({ base with success := true, data := some (screenshotExtract (ds.headD J.null)) }, done)
      | (.error m, done) => ({ base with error := some m }, done)
    else if cmd.action = some "click" then
      match runSeq orc 0 (clickCalls (cmd.x.getD 0) (cmd.y.getD 0)) with
      | (.ok _, done) => ({ base with success := true }, done)
      | (.error m, done) => ({ base with error := some m }, done)
    else if cmd.action = some "type" then
      match runSeq orc 0 (typeTextCalls (cmd.text.getD "")) with
      | (.ok _, done) => ({ base with success := true }, done)
      | (.error m, done) => ({ base with error := some m }, done)
    else if cmd.action = some "evaluate" then
      match runSeq orc 0 (evaluateCalls (cmd.expression.getD "")) with
      | (.ok ds, done) =>
        ({ base with success := true, value := some (evaluateExtract (ds.headD J.null)) }, done)
      | (.error m, done) => ({ base with error := some m }, done)
    else if cmd.action = some "get_url" then
      match runSeq orc 0 (evaluateCalls "window.location.href") with
      | (.ok ds, done) =>
        ({ base with success := true, url := some (evaluateExtract (ds.headD J.null)) }, done)
      | (.error m, done) => ({ base with error := some m }, done)
    else (base, [])
  (rc.1, rc.2,
    [Effect.publish ("browser:result:" ++ pyStrOpt cmd.session_id) rc.1.toJ])

/-- Scheduling-level events of a dispatcher run: a CDP request going out on
the wire, the await of the caller completing after the read loop resolved that id,
and a Command Result publication. -/
inductive TraceEv where
  | sent : Int → String → TraceEv
  | awaited : Int → TraceEv
  | published : String → TraceEv
  deriving DecidableEq

/-- One complete successful `send_command` round trip as the event loop
schedules it: the registration/send (`send_command_start`), then the read
loop resolving the response for that id (`handle_message`), after which the
await of the caller returns. The caller stays suspended until its own id is
resolved, so a round trip contributes `[sent id, awaited id]` and the state
after it is the post-resolution state of the read loop. -/
def call_and_await (st : BCState) (m : String) (p : Option J) : BCState × List TraceEv :=
  match send_command_start st m p with
  | .error _ => (st, [])
  | .ok (st1, mid, _) =>
    ((handle_message "" st1 (J.obj [("id", J.i mid), ("result", J.obj [])])).1,
      [TraceEv.sent mid m, TraceEv.awaited mid])

/-- The calls of a derived operation run strictly sequentially: the
round trip completes before the next sub-call is sent (the `await` on each
`send_command` in `navigate`/`click`/`type_text`/`evaluate`). -/
def run_calls_trace : BCState → List (String × J) → BCState × List TraceEv
  | st, [] => (st, [])
  | st, (m, p) :: rest =>
    ((run_calls_trace (call_and_await st m (some p)).1 rest).1,
      (call_and_await st m (some p)).2 ++
        (run_calls_trace (call_and_await st m (some p)).1 rest).2)

/-- The CDP calls a recognized action maps to (the same if/elif chain as
`process_command`); an unrecognized action issues no calls. -/
def command_calls (cmd : Command) : List (String × J) :=
  if cmd.action = some "navigate" then navigateCalls cmd.url
  else if cmd.action = some "screenshot" then screenshotCalls
  else if cmd.action = some "click" then clickCalls (cmd.x.getD 0) (cmd.y.getD 0)
  else if cmd.action = some "type" then typeTextCalls (cmd.text.getD "")
  else if cmd.action = some "evaluate" then evaluateCalls (cmd.expression.getD "")
  else if cmd.action = some "get_url" then evaluateCalls "window.location.href"
  else []

/-- One `process_command` invocation on the success path, as scheduled by the
event loop: all sub-call round trips in order, then the single result
publication. -/
def run_command (st : BCState) (cmd : Command) : BCState × List TraceEv :=
  ((run_calls_trace st (command_calls cmd)).1,
    (run_calls_trace st (command_calls cmd)).2 ++
      [TraceEv.published ("browser:result:" ++ pyStrOpt cmd.session_id)])

/-- The `listen_for_commands` loop over a finite prefix of the
`browser:commands` subscription: each delivered command is processed by
`await self.process_command(command)` before the next message is read, so the
run of a command list is the sequential composition of the runs of its
elements. -/
def listen_for_commands : BCState → List Command → BCState × List TraceEv
  | st, [] => (st, [])
  | st, c :: cs =>
    ((listen_for_commands (run_command st c).1 cs).1,
      (run_command st c).2 ++ (listen_for_commands (run_command st c).1 cs).2)

/-- The request ids of the `sent` events of a trace, in trace order. -/
def sentIds : List TraceEv → List Int
  | [] => []
  | .sent i _ :: r => i :: sentIds r
  | .awaited _ :: r => sentIds r
  | .published _ :: r => sentIds r

/-- The action names recognized by the if/elif chain of `process_command`. -/
def recognizedActions : List String :=
  ["navigate", "screenshot", "click", "type", "evaluate", "get_url"]

/-! ### Helper lemmas -/

theorem send_command_start_ok (st : BCState) (m : String) (p : Option J)
    (h : st.ws_connected = true) :
    send_command_start st m p = .ok
      ({ st with
          message_id := st.message_id + 1
          pending_commands := st.pending_commands ++ [st.message_id + 1] },
        st.message_id + 1,
        [Effect.send (J.obj [("id", J.i (st.message_id + 1)), ("method", J.s m),
          ("params", p.getD (J.obj []))])]) := by
  simp [send_command_start, h]

theorem handle_message_resolve (now : String) (st : BCState) (i : Int) (data : J)
    (h1 : data.lookup "id" = some (J.i i)) (h2 : i ∈ st.pending_commands) :
    handle_message now st data =
      ({ st with pending_commands := st.pending_commands.erase i },
        [Effect.resolve i data]) := by
  simp [handle_message, h1, h2]

theorem sendAll_spec (ms : List (String × Option J)) :
    ∀ st : BCState, st.ws_connected = true →
      (sendAll st ms).1.ws_connected = true
      ∧ (sendAll st ms).1.message_id = st.message_id + ms.length
      ∧ (sendAll st ms).1.pending_commands = st.pending_commands ++ (sendAll st ms).2
      ∧ (∀ i ∈ (sendAll st ms).2, st.message_id < i)
      ∧ List.Pairwise (· < ·) (sendAll st ms).2
      ∧ (sendAll st ms).2.length = ms.length := by
  induction ms with
  | nil => intro st h; simpa [sendAll] using h
  | cons mp rest ih =>
    intro st h
    obtain ⟨m, p⟩ := mp
    have hstep := send_command_start_ok st m p h
    obtain ⟨w1, m1, p1, b1, pw1, ln1⟩ := ih
      { st with
          message_id := st.message_id + 1
          pending_commands := st.pending_commands ++ [st.message_id + 1] } h
    simp only [sendAll, hstep]
    refine ⟨w1, ?_, ?_, ?_, ?_, ?_⟩
    · rw [m1]; simp; omega
    · rw [p1]; simp
    · intro i hi
      rcases List.mem_cons.1 hi with hc | hc
      · omega
      · have := b1 i hc; simp at this; omega
    · refine List.pairwise_cons.2 ⟨?_, pw1⟩
      intro b hb
      have := b1 b hb; simp at this; omega
    · simp [ln1]

/-! ### Claim theorems -/

/-- C1 (amended): when the control connection is lost, `handle_messages`
logs "Browser connection closed" and breaks; no sweep happens — the state
(and so the Correlation Table `pending_commands`) is left entirely
unchanged, and no Pending Request is resolved at that moment (in particular
none with a connection-lost error). The outstanding calls are resolved only
later, each by its own 30-second timeout. -/
theorem connection_loss_leaves_pending (now : String) (st : BCState)
    (rest : List WireEvent) :
    (handle_messages now st (.closed :: rest)).1 = st
    ∧ (handle_messages now st (.closed :: rest)).2 = [Effect.log "Browser connection closed"]
    ∧ ∀ e ∈ (handle_messages now st (.closed :: rest)).2, ∀ i d, e ≠ Effect.resolve i d := by
  refine ⟨rfl, rfl, ?_⟩
  intro e he i d
  rw [handle_messages] at he
  rw [List.mem_singleton] at he
  subst he
  exact fun hc => Effect.noConfusion hc

/-- C1 (counterexample): with requests 1 and 2 outstanding, the claimed sweep
on connection loss does not happen — after the read loop handles the
`ConnectionClosed` event, the Correlation Table still contains pending
entries (it is `[1, 2]`, not empty), and the only effect is the log line, so
no request was resolved with a `ConnectionLostError`. -/
theorem connection_loss_sweep_cex :
    (handle_messages "" ⟨true, 2, [1, 2]⟩ [.closed]).1.pending_commands ≠ []
    ∧ (handle_messages "" ⟨true, 2, [1, 2]⟩ [.closed]).2
        = [Effect.log "Browser connection closed"] := by
  exact ⟨by decide, rfl⟩

/-- C2: request ids are allocated from the session-scoped counter
`message_id`, so the ids of any sequence of concurrent `send_command`
registrations are strictly increasing (never reused: each exceeds every
previously allocated id) and all are registered in the Correlation Table;
and the read loop resolves a Response carrying id `i` with exactly the
pending entry `i` — handing it that very Response — removing only entry `i`
and leaving every other pending entry in place (given the keys of the table are
distinct, as dict keys are, entry `i` is gone afterwards). -/
theorem request_id_freshness_and_correlation (st : BCState)
    (ms : List (String × Option J)) (h : st.ws_connected = true) :
    List.Pairwise (· < ·) (sendAll st ms).2
    ∧ (∀ i ∈ (sendAll st ms).2, st.message_id < i)
    ∧ (sendAll st ms).1.pending_commands = st.pending_commands ++ (sendAll st ms).2
    ∧ (∀ (now : String) (st' : BCState) (i : Int) (data : J),
        data.lookup "id" = some (J.i i) → i ∈ st'.pending_commands →
          (handle_message now st' data).2 = [Effect.resolve i data]
          ∧ (handle_message now st' data).1.pending_commands = st'.pending_commands.erase i
          ∧ (∀ j, j ≠ i →
              (j ∈ (handle_message now st' data).1.pending_commands ↔ j ∈ st'.pending_commands))
          ∧ (st'.pending_commands.Nodup →
              i ∉ (handle_message now st' data).1.pending_commands)) := by
  obtain ⟨_, _, hp, hb, hpw, _⟩ := sendAll_spec ms st h
  refine ⟨hpw, hb, hp, ?_⟩
  intro now st' i data h1 h2
  rw [handle_message_resolve now st' i data h1 h2]
  refine ⟨rfl, rfl, ?_, ?_⟩
  · intro j hj
    exact List.mem_erase_of_ne hj
  · intro hnd
    exact hnd.not_mem_erase

/-- C2 (witness): two registrations from a fresh session allocate ids 1 then
2, strictly increasing, both registered. -/
theorem request_id_freshness_and_correlation_w :
    List.Pairwise (· < ·)
      (sendAll ⟨true, 0, []⟩ [("Page.enable", none), ("Network.enable", none)]).2
    ∧ (sendAll ⟨true, 0, []⟩ [("Page.enable", none), ("Network.enable", none)]).1.pending_commands
        = [] ++ (sendAll ⟨true, 0, []⟩ [("Page.enable", none), ("Network.enable", none)]).2 := by
  obtain ⟨hpw, _, hp, _⟩ := request_id_freshness_and_correlation ⟨true, 0, []⟩
    [("Page.enable", none), ("Network.enable", none)] rfl
  exact ⟨hpw, hp⟩

/-- C3: when `asyncio.wait_for` times out, `send_command` deletes the entry
of the call from `pending_commands` (so no entry for it remains) and raises the
timeout error "Command {method} timed out"; every other pending entry is
untouched. -/
theorem timeout_resolution_removes_entry (st : BCState) (mid : Int) (m : String)
    (_h1 : mid ∈ st.pending_commands) (h2 : st.pending_commands.Nodup) :
    (send_command_timeout st mid m).2 = "Command " ++ m ++ " timed out"
    ∧ mid ∉ (send_command_timeout st mid m).1.pending_commands
    ∧ ∀ j ∈ st.pending_commands, j ≠ mid →
        j ∈ (send_command_timeout st mid m).1.pending_commands := by
  refine ⟨rfl, ?_, ?_⟩
  · simpa [send_command_timeout] using h2.not_mem_erase
  · intro j hj hne
    simpa [send_command_timeout] using (List.mem_erase_of_ne hne).2 hj

/-- C3 (witness): request 2 times out while 2 and 3 are pending: the message
is the timeout error, 2 is gone, 3 is still pending. -/
theorem timeout_resolution_removes_entry_w :
    (send_command_timeout ⟨true, 3, [2, 3]⟩ 2 "Page.navigate").2
        = "Command " ++ "Page.navigate" ++ " timed out"
    ∧ 2 ∉ (send_command_timeout ⟨true, 3, [2, 3]⟩ 2 "Page.navigate").1.pending_commands
    ∧ ∀ j ∈ ([2, 3] : List Int), j ≠ 2 →
        j ∈ (send_command_timeout ⟨true, 3, [2, 3]⟩ 2 "Page.navigate").1.pending_commands := by
  exact timeout_resolution_removes_entry ⟨true, 3, [2, 3]⟩ 2 "Page.navigate"
    (by decide) (by decide)

/-- C5 (amended): a Response whose id is no longer in the Correlation Table
is discarded silently — `handle_messages` produces no effect at all for it
(no warning is printed; the claimed warning does not exist in the code) and
the state, hence every other Pending Request, is left unchanged. -/
theorem late_response_silent_discard (now : String) (st : BCState) (data : J)
    (i : Int) (h1 : data.lookup "id" = some (J.i i))
    (h2 : i ∉ st.pending_commands) :
    handle_message now st data = (st, []) := by
  simp [handle_message, h1, h2]

/-- C5 (witness): a late response for id 3 while only id 1 is pending is
dropped with no effect and no state change. -/
theorem late_response_silent_discard_w :
    handle_message "" ⟨true, 5, [1]⟩ (J.obj [("id", J.i 3), ("result", J.obj [])])
      = (⟨true, 5, [1]⟩, []) := by
  exact late_response_silent_discard "" ⟨true, 5, [1]⟩
    (J.obj [("id", J.i 3), ("result", J.obj [])]) 3 rfl (by decide)

/-- C5 (counterexample): the claimed "discarded with a warning" is false —
handling a late response for the removed id 3 emits an empty effect list, so
no warning (or any output) is produced; the rest of the table is indeed
unchanged. -/
theorem late_response_warning_cex :
    (handle_message "" ⟨true, 5, [1]⟩ (J.obj [("id", J.i 3), ("result", J.obj [])])).2 = []
    ∧ (handle_message "" ⟨true, 5, [1]⟩ (J.obj [("id", J.i 3), ("result", J.obj [])])).1
        = ⟨true, 5, [1]⟩ :=
  ⟨rfl, rfl⟩

/-- C4 (amended): an External Command whose action is not one of the six
recognized actions falls through every branch of the if/elif chain; the
`try` body does nothing, so the single published Command Result is exactly
`{"session_id": ..., "success": false}` — one result, no crash, but with no
error field at all (in particular no "unsupported action" error text). No
CDP call is issued. -/
theorem unknown_action_single_failure_result (orc : Nat → Outcome) (cmd : Command)
    (h : cmd.action ∉ List.map some recognizedActions) :
    process_command orc cmd =
      ({ session_id := cmd.session_id, success := false }, [],
        [Effect.publish ("browser:result:" ++ pyStrOpt cmd.session_id)
          (CmdResult.toJ { session_id := cmd.session_id, success := false })]) := by
  have h1 : cmd.action ≠ some "navigate" := by intro hh; exact h (by rw [hh]; decide)
  have h2 : cmd.action ≠ some "screenshot" := by intro hh; exact h (by rw [hh]; decide)
  have h3 : cmd.action ≠ some "click" := by intro hh; exact h (by rw [hh]; decide)
  have h4 : cmd.action ≠ some "type" := by intro hh; exact h (by rw [hh]; decide)
  have h5 : cmd.action ≠ some "evaluate" := by intro hh; exact h (by rw [hh]; decide)
  have h6 : cmd.action ≠ some "get_url" := by intro hh; exact h (by rw [hh]; decide)
  simp [process_command, h1, h2, h3, h4, h5, h6]

/-- C4 (witness): the unknown action "frobnicate" yields exactly one
published result `{"session_id": "s1", "success": false}`. -/
theorem unknown_action_single_failure_result_w :
    process_command (fun _ => Outcome.ok (J.obj []))
        { action := some "frobnicate", session_id := some "s1" } =
      ({ session_id := some "s1", success := false }, [],
        [Effect.publish ("browser:result:" ++ pyStrOpt (some "s1"))
          (CmdResult.toJ { session_id := some "s1", success := false })]) :=
  unknown_action_single_failure_result (fun _ => Outcome.ok (J.obj []))
    { action := some "frobnicate", session_id := some "s1" } (by decide)

/-- C4 (counterexample): the claimed "Command Result ... carrying an
unsupported-action error" is false — for the unknown action "frobnicate"
the published result has `success = false` but its error field is `none`:
no error payload of any kind is attached, and the published JSON is exactly
`{"session_id": "s1", "success": false}`. -/
theorem unknown_action_error_field_cex :
    (process_command (fun _ => Outcome.ok (J.obj []))
        { action := some "frobnicate", session_id := some "s1" }).1.error = none
    ∧ (process_command (fun _ => Outcome.ok (J.obj []))
        { action := some "frobnicate", session_id := some "s1" }).1.success = false
    ∧ (process_command (fun _ => Outcome.ok (J.obj []))
        { action := some "frobnicate", session_id := some "s1" }).2.2
        = [Effect.publish "browser:result:s1"
            (J.obj [("session_id", J.s "s1"), ("success", J.b false)])] :=
  ⟨rfl, rfl, rfl⟩

/-- C9: the read loop does not inspect the payload of a Response — a
`{id, error}` Response resolves the matching Pending Request exactly like a
`{id, result}` Response; `process_command` never looks at the resolved
payload of `navigate`, so the published Command Result is `success = true`
and is identical to the one produced for a result payload; `evaluate`
likewise publishes `success = true` (its extracted value defaults to null). -/
theorem error_payload_resolves_as_success (now : String) (st : BCState) (i : Int)
    (data eJ : J) (h1 : data.lookup "id" = some (J.i i))
    (h2 : i ∈ st.pending_commands) (_hE : data.lookup "error" = some eJ) :
    (handle_message now st data).2 = [Effect.resolve i data]
    ∧ (∀ (orc : Nat → Outcome) (sid url : Option String), orc 0 = Outcome.ok data →
        process_command orc { action := some "navigate", session_id := sid, url := url } =
          ({ session_id := sid, success := true }, navigateCalls url,
            [Effect.publish ("browser:result:" ++ pyStrOpt sid)
              (CmdResult.toJ { session_id := sid, success := true })]))
    ∧ (∀ (orc : Nat → Outcome) (sid : Option String) (ex : String),
        orc 0 = Outcome.ok data →
          (process_command orc
            { action := some "evaluate", session_id := sid, expression := some ex }).1.success
            = true) := by
  refine ⟨?_, ?_, ?_⟩
  · rw [handle_message_resolve now st i data h1 h2]
  · intro orc sid url horc
    simp [process_command, navigateCalls, runSeq, horc]
  · intro orc sid ex horc
    simp [process_command, evaluateCalls, runSeq, horc]

/-- C9 (witness): with request 1 pending, the error Response
`{"id": 1, "error": {"message": "boom"}}` is resolved like any result, and a
navigate command whose only call resolves with that error payload publishes
`success = true`. -/
theorem error_payload_resolves_as_success_w :
    (handle_message "" ⟨true, 1, [1]⟩
        (J.obj [("id", J.i 1), ("error", J.obj [("message", J.s "boom")])])).2
      = [Effect.resolve 1 (J.obj [("id", J.i 1), ("error", J.obj [("message", J.s "boom")])])]
    ∧ (process_command
        (fun _ => Outcome.ok (J.obj [("id", J.i 1), ("error", J.obj [("message", J.s "boom")])]))
        { action := some "navigate", session_id := some "s1", url := some "https://x" }).1
      = { session_id := some "s1", success := true } := by
  obtain ⟨ha, hb, _⟩ := error_payload_resolves_as_success ""
    ⟨true, 1, [1]⟩ 1 (J.obj [("id", J.i 1), ("error", J.obj [("message", J.s "boom")])])
    (J.obj [("message", J.s "boom")]) rfl (by decide) rfl
  refine ⟨ha, ?_⟩
  rw [hb (fun _ => Outcome.ok (J.obj [("id", J.i 1), ("error", J.obj [("message", J.s "boom")])]))
    (some "s1") (some "https://x") rfl]

/-- C10: a `click` command with no `x`/`y` dispatches the press/release pair
at coordinates (0, 0); a `type` command with no `text` types the empty
string (zero key events); an `evaluate` command with no `expression`
evaluates the empty string — in each case the command succeeds instead of
failing, publishing `success = true`. -/
theorem missing_params_defaults :
    (process_command (fun _ => Outcome.ok (J.obj []))
        { action := some "click", session_id := some "s" }).2.1 = clickCalls 0 0
    ∧ (process_command (fun _ => Outcome.ok (J.obj []))
        { action := some "click", session_id := some "s" }).1
        = { session_id := some "s", success := true }
    ∧ (process_command (fun _ => Outcome.ok (J.obj []))
        { action := some "type", session_id := some "s" }).2.1 = typeTextCalls ""
    ∧ typeTextCalls "" = []
    ∧ (process_command (fun _ => Outcome.ok (J.obj []))
        { action := some "type", session_id := some "s" }).1
        = { session_id := some "s", success := true }
    ∧ (process_command (fun _ => Outcome.ok (J.obj []))
        { action := some "evaluate", session_id := some "s" }).2.1 = evaluateCalls ""
    ∧ (process_command (fun _ => Outcome.ok (J.obj []))
        { action := some "evaluate", session_id := some "s" }).1
        = { session_id := some "s", success := true, value := some J.null } :=
  ⟨rfl, rfl, rfl, rfl, rfl, rfl, rfl⟩

/-- C6: `connect_to_browser` selects the first discovery target of type
"page" and falls back to the first target overall when none has that type;
an empty target list, or a selected target with no `webSocketDebuggerUrl`,
produces the connect-failure outcome `none` (the function `return False`)
rather than a crash. -/
theorem target_selection_rules :
    connect_to_browser [] = none
    ∧ (∀ (ts : List Target) (t : Target),
        ts.find? (fun t => t.type = some "page") = some t →
          connect_to_browser ts = t.webSocketDebuggerUrl)
    ∧ (∀ (t0 : Target) (rest : List Target),
        (t0 :: rest).find? (fun t => t.type = some "page") = none →
          connect_to_browser (t0 :: rest) = t0.webSocketDebuggerUrl)
    ∧ (∀ (t0 : Target) (rest : List Target),
        (((t0 :: rest).find? (fun t => t.type = some "page")).getD t0).webSocketDebuggerUrl
            = none →
          connect_to_browser (t0 :: rest) = none) := by
  refine ⟨rfl, ?_, ?_, ?_⟩
  · intro ts t hf
    cases ts with
    | nil => simp [List.find?] at hf
    | cons t0 rest => simp [connect_to_browser, hf]
  · intro t0 rest hf
    simp [connect_to_browser, hf]
  · intro t0 rest hsel
    simpa [connect_to_browser] using hsel

/-- C6 (witness): the example given in the specification — discovery returns a single page
target with address ws://h/1 and the bridge selects that address; a list
with no page target falls back to its first element; the empty list fails. -/
theorem target_selection_rules_w :
    connect_to_browser [⟨some "page", some "ws://h/1"⟩] = some "ws://h/1"
    ∧ connect_to_browser [⟨some "iframe", some "ws://h/0"⟩, ⟨some "page", some "ws://h/1"⟩]
        = some "ws://h/1"
    ∧ connect_to_browser [⟨some "iframe", some "ws://h/0"⟩] = some "ws://h/0"
    ∧ connect_to_browser [⟨some "page", none⟩] = none := by
  refine ⟨?_, ?_, ?_, ?_⟩
  · exact target_selection_rules.2.1 _ ⟨some "page", some "ws://h/1"⟩ rfl
  · exact target_selection_rules.2.1 _ ⟨some "page", some "ws://h/1"⟩ rfl
  · exact target_selection_rules.2.2.1 ⟨some "iframe", some "ws://h/0"⟩ [] rfl
  · exact target_selection_rules.2.2.2 ⟨some "page", none⟩ [] rfl

/-- C7: `handle_event` republishes a Notification onto `browser:events` as
`{type, params, timestamp}` exactly when its method equals one of the three
allow-listed names — Page.loadEventFired (page-load completion),
Page.frameNavigated (frame navigation) and Network.requestWillBeSent
(outbound network request initiation) — and produces no effect at all for
any other method; the read loop routes a message with no id and a method
field to `handle_event` unchanged. -/
theorem event_allowlist_filter (now : String) (ev : J) :
    (isAllowedEvent (ev.getD "method" (J.s "")) = true →
      handle_event now ev = [Effect.publish "browser:events"
        (J.obj [("type", ev.getD "method" (J.s "")), ("params", ev.getD "params" (J.obj [])),
          ("timestamp", J.s now)])])
    ∧ (isAllowedEvent (ev.getD "method" (J.s "")) = false → handle_event now ev = [])
    ∧ (∀ m : J, isAllowedEvent m = true ↔
        (m = J.s "Page.loadEventFired" ∨ m = J.s "Page.frameNavigated"
          ∨ m = J.s "Network.requestWillBeSent"))
    ∧ (∀ st : BCState, ev.lookup "id" = none → (ev.lookup "method").isSome = true →
        handle_message now st ev = (st, handle_event now ev)) := by
  refine ⟨?_, ?_, ?_, ?_⟩
  · intro hA; simp [handle_event, hA]
  · intro hA; simp [handle_event, hA]
  · intro m
    cases m with
    | s x => simp [isAllowedEvent, jeqS, or_assoc]
    | null => simp [isAllowedEvent, jeqS]
    | b y => simp [isAllowedEvent, jeqS]
    | i n => simp [isAllowedEvent, jeqS]
    | obj kvs => simp [isAllowedEvent, jeqS]
  · intro st hid hm
    simp [handle_message, hid, hm]

/-- C7 (witness): a Page.loadEventFired Notification is republished with its
params and the timestamp; a Page.domContentEventFired Notification (not on
the allow-list) produces no publication. -/
theorem event_allowlist_filter_w :
    handle_event "T" (J.obj [("method", J.s "Page.loadEventFired"), ("params", J.obj [("x", J.i 1)])])
      = [Effect.publish "browser:events"
          (J.obj [("type", J.s "Page.loadEventFired"), ("params", J.obj [("x", J.i 1)]),
            ("timestamp", J.s "T")])]
    ∧ handle_event "T" (J.obj [("method", J.s "Page.domContentEventFired")]) = [] := by
  refine ⟨?_, ?_⟩
  · exact (event_allowlist_filter "T" _).1 (by decide)
  · exact (event_allowlist_filter "T" _).2.1 (by decide)

theorem sentIds_append (a b : List TraceEv) : sentIds (a ++ b) = sentIds a ++ sentIds b := by
  induction a with
  | nil => rfl
  | cons e r ih => cases e <;> simp [sentIds, ih]

theorem call_and_await_spec (st : BCState) (m : String) (p : Option J) :
    (call_and_await st m p).1.ws_connected = st.ws_connected
    ∧ st.message_id ≤ (call_and_await st m p).1.message_id
    ∧ (∀ i ∈ sentIds (call_and_await st m p).2,
        st.message_id < i ∧ i ≤ (call_and_await st m p).1.message_id)
    ∧ List.Pairwise (· < ·) (sentIds (call_and_await st m p).2) := by
  by_cases h : st.ws_connected = true
  · have hres : (J.obj [("id", J.i (st.message_id + 1)), ("result", J.obj [])]).lookup "id"
        = some (J.i (st.message_id + 1)) := by
      simp [J.lookup, lookupKV]
    have hmem : (st.message_id + 1) ∈ st.pending_commands ++ [st.message_id + 1] := by simp
    rw [call_and_await, send_command_start_ok st m p h]
    simp only []
    rw [handle_message_resolve _ _ _ _ hres hmem]
    refine ⟨rfl, by simp, ?_, ?_⟩
    · intro i hi
      simp [sentIds] at hi
      simp [hi]
    · simp [sentIds]
  · have hf : st.ws_connected = false := by
      cases hc : st.ws_connected
      · rfl
      · exact absurd hc h
    rw [call_and_await]
    simp [send_command_start, hf, sentIds]

theorem run_calls_trace_spec (cs : List (String × J)) :
    ∀ st : BCState,
      (run_calls_trace st cs).1.ws_connected = st.ws_connected
      ∧ st.message_id ≤ (run_calls_trace st cs).1.message_id
      ∧ (∀ i ∈ sentIds (run_calls_trace st cs).2,
          st.message_id < i ∧ i ≤ (run_calls_trace st cs).1.message_id)
      ∧ List.Pairwise (· < ·) (sentIds (run_calls_trace st cs).2) := by
  induction cs with
  | nil => intro st; simp [run_calls_trace, sentIds]
  | cons c rest ih =>
    intro st
    obtain ⟨m, p⟩ := c
    obtain ⟨w1, l1, b1, p1⟩ := call_and_await_spec st m (some p)
    obtain ⟨w2, l2, b2, p2⟩ := ih (call_and_await st m (some p)).1
    rw [run_calls_trace]
    refine ⟨by rw [w2, w1], le_trans l1 l2, ?_, ?_⟩
    · intro i hi
      rw [sentIds_append] at hi
      rcases List.mem_append.1 hi with hA | hB
      · obtain ⟨ha, hb⟩ := b1 i hA
        exact ⟨ha, le_trans hb l2⟩
      · obtain ⟨ha, hb⟩ := b2 i hB
        exact ⟨lt_of_le_of_lt l1 ha, hb⟩
    · rw [sentIds_append]
      refine List.pairwise_append.2 ⟨p1, p2, ?_⟩
      intro a haA b hbB
      exact lt_of_le_of_lt (b1 a haA).2 (b2 b hbB).1

theorem run_command_spec (st : BCState) (cmd : Command) :
    st.message_id ≤ (run_command st cmd).1.message_id
    ∧ (∀ i ∈ sentIds (run_command st cmd).2,
        st.message_id < i ∧ i ≤ (run_command st cmd).1.message_id)
    ∧ List.Pairwise (· < ·) (sentIds (run_command st cmd).2) := by
  obtain ⟨_, l1, b1, p1⟩ := run_calls_trace_spec (command_calls cmd) st
  rw [run_command]
  refine ⟨l1, ?_, ?_⟩
  · intro i hi
    rw [sentIds_append] at hi
    simp [sentIds] at hi
    exact b1 i hi
  · rw [sentIds_append]
    simpa [sentIds] using p1

theorem listen_for_commands_spec (cs : List Command) :
    ∀ st : BCState,
      st.message_id ≤ (listen_for_commands st cs).1.message_id
      ∧ (∀ i ∈ sentIds (listen_for_commands st cs).2,
          st.message_id < i ∧ i ≤ (listen_for_commands st cs).1.message_id)
      ∧ List.Pairwise (· < ·) (sentIds (listen_for_commands st cs).2) := by
  induction cs with
  | nil => intro st; simp [listen_for_commands, sentIds]
  | cons c rest ih =>
    intro st
    obtain ⟨l1, b1, p1⟩ := run_command_spec st c
    obtain ⟨l2, b2, p2⟩ := ih (run_command st c).1
    rw [listen_for_commands]
    refine ⟨le_trans l1 l2, ?_, ?_⟩
    · intro i hi
      rw [sentIds_append] at hi
      rcases List.mem_append.1 hi with hA | hB
      · obtain ⟨ha, hb⟩ := b1 i hA
        exact ⟨ha, le_trans hb l2⟩
      · obtain ⟨ha, hb⟩ := b2 i hB
        exact ⟨lt_of_le_of_lt l1 ha, hb⟩
    · rw [sentIds_append]
      refine List.pairwise_append.2 ⟨p1, p2, ?_⟩
      intro a haA b hbB
      exact lt_of_le_of_lt (b1 a haA).2 (b2 b hbB).1

theorem handle_message_pending_cases (now : String) (st : BCState) (d : J) :
    (handle_message now st d).1.pending_commands = st.pending_commands
    ∨ ∃ mid, d.lookup "id" = some (J.i mid)
        ∧ (handle_message now st d).1.pending_commands = st.pending_commands.erase mid := by
  rcases hl : d.lookup "id" with _ | v
  · by_cases hm : (d.lookup "method").isSome
    · left; simp [handle_message, hl, hm]
    · left; simp [handle_message, hl, hm]
  · cases v with
    | i mid =>
      by_cases h2 : mid ∈ st.pending_commands
      · right; exact ⟨mid, rfl, by simp [handle_message, hl, h2]⟩
      · left; simp [handle_message, hl, h2]
    | null => left; simp [handle_message, hl]
    | b x => left; simp [handle_message, hl]
    | s x => left; simp [handle_message, hl]
    | obj kvs => left; simp [handle_message, hl]

theorem handle_messages_msgs_append (now : String) (as bs : List J) :
    ∀ st : BCState,
      (handle_messages now st ((as ++ bs).map WireEvent.msg)).1
        = (handle_messages now (handle_messages now st (as.map WireEvent.msg)).1
            (bs.map WireEvent.msg)).1
      ∧ (handle_messages now st ((as ++ bs).map WireEvent.msg)).2
        = (handle_messages now st (as.map WireEvent.msg)).2
          ++ (handle_messages now (handle_messages now st (as.map WireEvent.msg)).1
              (bs.map WireEvent.msg)).2 := by
  induction as with
  | nil => intro st; simp [handle_messages]
  | cons a r ih =>
    intro st
    obtain ⟨ih1, ih2⟩ := ih (handle_message now st a).1
    refine ⟨?_, ?_⟩
    · simp only [List.cons_append, List.map_cons, handle_messages, List.append_eq]
      rw [ih1]
    · simp only [List.cons_append, List.map_cons, handle_messages, List.append_eq]
      rw [ih2, List.append_assoc]

theorem read_loop_pending_persists (now : String) (i : Int) (ds : List J) :
    ∀ st : BCState, i ∈ st.pending_commands →
      (∀ d ∈ ds, d.lookup "id" ≠ some (J.i i)) →
      i ∈ (handle_messages now st (ds.map WireEvent.msg)).1.pending_commands := by
  induction ds with
  | nil => intro st hi _; simpa [handle_messages] using hi
  | cons d r ih =>
    intro st hi hno
    rw [List.map_cons, handle_messages]
    apply ih
    · rcases handle_message_pending_cases now st d with hc | ⟨mid, hl, hc⟩
      · rw [hc]; exact hi
      · rw [hc]
        refine (List.mem_erase_of_ne ?_).2 hi
        intro he
        exact hno d (List.mem_cons_self d r) (by rw [hl, he])
    · intro d2 h2
      exact hno d2 (List.mem_cons_of_mem d h2)

/-- C8 (amended): the per-call machinery of the original claim is real — any
number of `send_command` registrations may be outstanding at once, each with
its own fresh id in the Correlation Table, and the single read loop never
blocks waiting on the resolution of a call: it services every further
inbound frame unconditionally (the effects of frame k+1 are simply appended
after those of the first k frames, from whatever state they left), and a
call whose Response never arrives merely stays pending without stalling the
loop. What fails is only the concurrent dispatch: the Command Dispatcher
processes External Commands strictly sequentially — the scheduling trace of
a command list is the trace of the first command (all of its sub-call round
trips and its result publication) followed by the trace of the rest from
the resulting state, and the ids of the wire sends over a whole dispatcher
run are strictly increasing, so sub-calls of distinct External Commands
never interleave. -/
theorem dispatcher_sequential (st : BCState) (c : Command) (cs : List Command) :
    (listen_for_commands st (c :: cs)).2
      = (run_command st c).2 ++ (listen_for_commands (run_command st c).1 cs).2
    ∧ List.Pairwise (· < ·) (sentIds (listen_for_commands st (c :: cs)).2)
    ∧ (∀ (st2 : BCState) (ms : List (String × Option J)), st2.ws_connected = true →
        (sendAll st2 ms).1.pending_commands = st2.pending_commands ++ (sendAll st2 ms).2
        ∧ (sendAll st2 ms).2.length = ms.length
        ∧ List.Pairwise (· < ·) (sendAll st2 ms).2)
    ∧ (∀ (now : String) (st3 : BCState) (ds : List J) (d : J),
        (handle_messages now st3 ((ds ++ [d]).map WireEvent.msg)).2
          = (handle_messages now st3 (ds.map WireEvent.msg)).2
            ++ (handle_message now (handle_messages now st3 (ds.map WireEvent.msg)).1 d).2)
    ∧ (∀ (now : String) (st4 : BCState) (i : Int) (ds : List J),
        i ∈ st4.pending_commands →
        (∀ d ∈ ds, d.lookup "id" ≠ some (J.i i)) →
        i ∈ (handle_messages now st4 (ds.map WireEvent.msg)).1.pending_commands) := by
  refine ⟨rfl, (listen_for_commands_spec (c :: cs) st).2.2, ?_, ?_, ?_⟩
  · intro st2 ms h2
    obtain ⟨_, _, hp, _, hpw, hlen⟩ := sendAll_spec ms st2 h2
    exact ⟨hp, hlen, hpw⟩
  · intro now st3 ds d
    have h := (handle_messages_msgs_append now ds [d] st3).2
    simpa [handle_messages] using h
  · intro now st4 i ds hi hno
    exact read_loop_pending_persists now i ds st4 hi hno

/-- C8 (witness): two registrations on a fresh session leave two
simultaneous pending entries; and with requests 1 and 2 outstanding, the
read loop services a Response for request 2 and a subsequent Notification
while request 1 — whose Response never arrives — simply stays pending:
the loop is not stalled by the unresolved call. -/
theorem dispatcher_sequential_w :
    (sendAll ⟨true, 0, []⟩ [("Page.enable", none), ("Network.enable", none)]).2.length = 2
    ∧ 1 ∈ (handle_messages "" ⟨true, 2, [1, 2]⟩
        ([J.obj [("id", J.i 2), ("result", J.obj [])],
          J.obj [("method", J.s "Page.loadEventFired")]].map WireEvent.msg)).1.pending_commands := by
  have h := dispatcher_sequential ⟨true, 0, []⟩ {} []
  refine ⟨?_, ?_⟩
  · exact (h.2.2.1 ⟨true, 0, []⟩ [("Page.enable", none), ("Network.enable", none)] rfl).2.1
  · refine h.2.2.2.2 "" ⟨true, 2, [1, 2]⟩ 1 _ (by decide) ?_
    refine List.forall_mem_cons.2 ⟨?_, List.forall_mem_cons.2 ⟨?_, ?_⟩⟩
    · simp [J.lookup, lookupKV]
    · simp [J.lookup, lookupKV]
    · simp

/-- C8 (counterexample): two navigate commands dispatched back-to-back do
not execute concurrently — the full trace is strictly sequential, and the
first wire send of the second command (position 3) happens only after the
result publication of the first command (position 2): head-of-line blocking on
`await self.process_command(command)`. -/
theorem dispatcher_sequential_cex :
    (listen_for_commands ⟨true, 0, []⟩
        [{ action := some "navigate", session_id := some "a", url := some "https://x" },
         { action := some "navigate", session_id := some "b", url := some "https://y" }]).2
      = [TraceEv.sent 1 "Page.navigate", TraceEv.awaited 1,
         TraceEv.published "browser:result:a",
         TraceEv.sent 2 "Page.navigate", TraceEv.awaited 2,
         TraceEv.published "browser:result:b"]
    ∧ (listen_for_commands ⟨true, 0, []⟩
        [{ action := some "navigate", session_id := some "a", url := some "https://x" },
         { action := some "navigate", session_id := some "b", url := some "https://y" }]).2.get? 2
      = some (TraceEv.published "browser:result:a")
    ∧ (listen_for_commands ⟨true, 0, []⟩
        [{ action := some "navigate", session_id := some "a", url := some "https://x" },
         { action := some "navigate", session_id := some "b", url := some "https://y" }]).2.get? 3
      = some (TraceEv.sent 2 "Page.navigate") :=
  ⟨rfl, rfl, rfl⟩

end BrowserService
